import Mathlib

/-!
Verification of the taipower power-report pipeline (src/src/main.rs).

The Rust program is embedded shallowly:
* `f64` values are modelled by `FVal`: an exact rational for finite floats
  plus the three non-finite classes (`inf`, `neginf`, `nan`).  Finite
  arithmetic is exact (no IEEE-754 rounding); the non-finite propagation
  rules of IEEE-754 addition, division and comparison are modelled.
* JSON response bodies are modelled as `Json` values; the serde decoding of
  the three accepted schemas is embedded as explicit decoders.
* Network effects are modelled by passing each endpoint's outcome as data.
-/

/-- Exact rational addition, written on numerators and denominators so that
it evaluates by kernel reduction. -/
def qadd (a b : ℚ) : ℚ := mkRat (a.num * b.den + b.num * a.den) (a.den * b.den)

/-- Exact rational division (total; division by zero gives 0, but every use
below guards the zero case separately). -/
def qdiv (a b : ℚ) : ℚ :=
  if 0 ≤ b.num then mkRat (a.num * b.den) (a.den * b.num.toNat)
  else mkRat (-(a.num * b.den)) (a.den * (-b.num).toNat)

/-- Exact rational multiplication by 100. -/
def qmul100 (a : ℚ) : ℚ := mkRat (a.num * 100) a.den

/-- Model of an `f64` value: exact finite rational, or a non-finite class. -/
inductive FVal : Type
  | finite (q : ℚ)
  | inf
  | neginf
  | nan
deriving DecidableEq

/-- Is the value a finite float? -/
def FVal.isFinite : FVal → Bool
  | .finite _ => true
  | _ => false

/-- IEEE-754 addition on the model (exact on finite values). -/
def fadd : FVal → FVal → FVal
  | .nan, _ => .nan
  | _, .nan => .nan
  | .inf, .neginf => .nan
  | .neginf, .inf => .nan
  | .inf, _ => .inf
  | _, .inf => .inf
  | .neginf, _ => .neginf
  | _, .neginf => .neginf
  | .finite a, .finite b => .finite (qadd a b)

/-- IEEE-754 division on the model (exact on finite values; signed zeros are
not modelled, zero is treated as positive). -/
def fdiv : FVal → FVal → FVal
  | .nan, _ => .nan
  | _, .nan => .nan
  | .inf, .inf => .nan
  | .inf, .neginf => .nan
  | .neginf, .inf => .nan
  | .neginf, .neginf => .nan
  | .inf, .finite b => if b < 0 then .neginf else .inf
  | .neginf, .finite b => if b < 0 then .inf else .neginf
  | .finite _, .inf => .finite 0
  | .finite _, .neginf => .finite 0
  | .finite a, .finite b =>
      if b = 0 then
        (if a = 0 then .nan else if 0 < a then .inf else .neginf)
      else .finite (qdiv a b)

/-- Multiplication by the float literal `100.0`. -/
def fmul100 : FVal → FVal
  | .finite a => .finite (qmul100 a)
  | .inf => .inf
  | .neginf => .neginf
  | .nan => .nan

/-- IEEE-754 strict greater-than (`NaN` compares false). -/
def fgt : FVal → FVal → Bool
  | .nan, _ => false
  | _, .nan => false
  | .inf, .inf => false
  | .inf, _ => true
  | .neginf, _ => false
  | .finite _, .inf => false
  | .finite _, .neginf => true
  | .finite a, .finite b => decide (b < a)

/-- `PartialOrd::partial_cmp` on the model (`none` when a `NaN` is involved). -/
def fpcmp : FVal → FVal → Option Ordering
  | .nan, _ => none
  | _, .nan => none
  | .inf, .inf => some .eq
  | .inf, _ => some .gt
  | _, .inf => some .lt
  | .neginf, .neginf => some .eq
  | .neginf, _ => some .lt
  | _, .neginf => some .gt
  | .finite a, .finite b =>
      some (if a < b then .lt else if b < a then .gt else .eq)

/-! ### String helpers (Rust `str` operations) -/

/-- Rust `str::contains` for a literal pattern: substring containment,
modelled char-wise (UTF-8 is self-synchronizing, so byte-level matches of a
valid pattern occur exactly at char-level infix positions). -/
def strContains (s pat : String) : Bool :=
  decide (pat.toList <:+: s.toList)

/-- One fuelled pass of Rust `str::replace`: replaces non-overlapping
occurrences of `pat` left to right. -/
def replaceFrom : ℕ → List Char → List Char → List Char → List Char
  | 0, s, _, _ => s
  | n + 1, s, pat, rep =>
    match s with
    | [] => []
    | c :: rest =>
      if pat ≠ [] ∧ pat <+: s then rep ++ replaceFrom n (s.drop pat.length) pat rep
      else c :: replaceFrom n rest pat rep

/-- Rust `str::replace`. -/
def strReplace (s pat rep : String) : String :=
  String.mk (replaceFrom s.toList.length s.toList pat.toList rep.toList)

/-! ### Rust `f64::from_str` (`"text".parse::<f64>()`)

Grammar (from the Rust standard library documentation, applied
case-insensitively):
`Float ::= Sign? ( 'inf' | 'infinity' | 'nan' | Number )`,
`Number ::= Count '.'? Count? Exp? | '.' Count Exp?`,
`Exp ::= ('e' | 'E') Sign? Count`.
The numeric value is modelled exactly as a rational; IEEE-754 rounding of the
decimal literal (and overflow of huge literals to infinity) is not modelled.
-/

/-- ASCII-case-insensitive code of a character. -/
def lowNat (c : Char) : ℕ :=
  if 65 ≤ c.toNat ∧ c.toNat ≤ 90 then c.toNat + 32 else c.toNat

/-- Case-insensitive code list of a char list. -/
def ciCode (l : List Char) : List ℕ := l.map lowNat

/-- ASCII digit test. -/
def isDig (c : Char) : Bool := decide (48 ≤ c.toNat ∧ c.toNat ≤ 57)

/-- Value of a digit string. -/
def digitsToNat (l : List Char) : ℕ :=
  l.foldl (fun a c => a * 10 + (c.toNat - 48)) 0

/-- Strip an optional leading sign; returns (isNegative, rest). -/
def splitSign : List Char → Bool × List Char
  | '+' :: t => (false, t)
  | '-' :: t => (true, t)
  | t => (false, t)

/-- Parse the optional exponent part, which must consume the whole rest. -/
def parseExpPart : List Char → Option ℤ
  | [] => some 0
  | c :: r =>
    if c = 'e' ∨ c = 'E' then
      let sr := splitSign r
      let ds := sr.2.takeWhile isDig
      if ds.isEmpty ∨ sr.2.drop ds.length ≠ [] then none
      else some ((if sr.1 then -1 else 1) * (digitsToNat ds : ℤ))
    else none

/-- Exact rational value of `intDs . fracDs × 10 ^ e`. -/
def ratOfParts (intDs fracDs : List Char) (e : ℤ) : ℚ :=
  let mant : ℤ := (digitsToNat intDs * 10 ^ fracDs.length + digitsToNat fracDs : ℕ)
  if 0 ≤ e then mkRat (mant * 10 ^ e.toNat) (10 ^ fracDs.length)
  else mkRat mant (10 ^ fracDs.length * 10 ^ (-e).toNat)

/-- Parse the `Number` production (whole input must be consumed). -/
def parseDecimalCore (l : List Char) : Option ℚ :=
  let ds := l.takeWhile isDig
  let r1 := l.drop ds.length
  if ds.isEmpty then
    match r1 with
    | '.' :: r2 =>
      let fs := r2.takeWhile isDig
      if fs.isEmpty then none
      else
        match parseExpPart (r2.drop fs.length) with
        | some e => some (ratOfParts ds fs e)
        | none => none
    | _ => none
  else
    match r1 with
    | '.' :: r2 =>
      let fs := r2.takeWhile isDig
      match parseExpPart (r2.drop fs.length) with
      | some e => some (ratOfParts ds fs e)
      | none => none
    | r2 =>
      match parseExpPart r2 with
      | some e => some (ratOfParts ds [] e)
      | none => none

/-- Rust `"text".parse::<f64>()`: `none` models `Err`. -/
def rustParseF64 (s : String) : Option FVal :=
  let sr := splitSign s.toList
  if ciCode sr.2 = ciCode "inf".toList ∨ ciCode sr.2 = ciCode "infinity".toList then
    some (if sr.1 then .neginf else .inf)
  else if ciCode sr.2 = ciCode "nan".toList then some .nan
  else (parseDecimalCore sr.2).map fun q => .finite (if sr.1 then -q else q)

/-! ### Value Parser (`parse_mw_value`, main.rs lines 473–486) -/

/-- The cleaning step of `parse_mw_value`: keep only the part before the
first `'('` (Rust `split('(').next()`), then remove every comma
(Rust `.replace(",", "")`). -/
def cleanNumeric (s : String) : String :=
  String.mk ((s.toList.takeWhile (fun c => c ≠ '(')).filter (fun c => c ≠ ','))

/-- `parse_mw_value` (main.rs 473–486). -/
def parse_mw_value (value : String) : FVal :=
  let cleaned := cleanNumeric value
  if cleaned = "-" ∨ cleaned = "N/A" ∨ cleaned = "" then .finite 0
  else (rustParseF64 cleaned).getD (.finite 0)

example : parse_mw_value "1,234" = FVal.finite 1234 := by decide
example : parse_mw_value "5(note)" = FVal.finite 5 := by decide
example : parse_mw_value "-" = FVal.finite 0 := by decide
example : parse_mw_value "" = FVal.finite 0 := by decide
example : parse_mw_value "N/A" = FVal.finite 0 := by decide
example : parse_mw_value "inf" = FVal.inf := by decide
example : parse_mw_value "-12.5" = FVal.finite (mkRat (-25) 2) := by decide

/-! ### Data model (main.rs 30–136) -/

/-- `PowerUnit` (main.rs 30–44): one generation-unit row; all fields are the
raw textual values.  The source field `ratio` is named `ratioText` here. -/
structure PowerUnit : Type where
  unit_type : String
  unit_name : String
  capacity : String
  generation : String
  ratioText : String
  remark : String
deriving DecidableEq

/-- `PowerData` (main.rs 15–21): shape (a), an object with a `DateTime`
string and an `aaData` array of unit rows. -/
structure PowerData : Type where
  date_time : String
  aa_data : List PowerUnit
deriving DecidableEq

/-- `AlternativePowerData` (main.rs 24–28): shape (b), an object with a
`datas` array of unit rows and no timestamp. -/
structure AlternativePowerData : Type where
  datas : List PowerUnit
deriving DecidableEq

/-- `PowerAnalysis` (main.rs 117–130).  The source fields `renewable_ratio`
and `private_ratio` are named with a `_pct` suffix here. -/
structure PowerAnalysis : Type where
  update_time : String
  total_generation : FVal
  estimated_max_generation : FVal
  generation_by_type : List (String × FVal)
  top_plant : String × FVal
  top_unit : String × FVal
  environmental_restrictions : Int
  maintenance_count : Int
  fault_count : Int
  renewable_ratio_pct : FVal
  private_ratio_pct : FVal
deriving DecidableEq

/-! ### Analysis helpers (main.rs 488–514) -/

/-- `clean_energy_type` (main.rs 488–497). -/
def clean_energy_type (energy_type : String) : String :=
  if strContains energy_type "民營電廠" then strReplace energy_type "民營電廠-" "民營"
  else if strContains energy_type "其它再生能源" then "其它再生能源"
  else energy_type

/-- `is_renewable` (main.rs 499–501). -/
def is_renewable (energy_type : String) : Bool :=
  energy_type = "風力" ∨ energy_type = "太陽能" ∨ energy_type = "水力" ∨
    energy_type = "其它再生能源"

/-- Rust `str::trim` (Unicode-whitespace trim at both ends). -/
def strTrim (s : String) : String :=
  String.mk (((s.toList.dropWhile Char.isWhitespace).reverse.dropWhile
    Char.isWhitespace).reverse)

/-- `extract_plant_name` (main.rs 503–514). -/
def extract_plant_name (unit_name : String) : Option String :=
  if unit_name.toList.contains '#' then
    some (String.mk (unit_name.toList.takeWhile (fun c => c ≠ '#')))
  else if strContains unit_name "小計" then none
  else
    some (strTrim (String.mk (unit_name.toList.takeWhile
      (fun c => c ≠ '(' ∧ c ≠ '[' ∧ c ≠ '#'))))

/-! ### HashMap model

`HashMap<String, f64>` is modelled as an association list; HashMap
iteration order is unspecified in Rust, the model realizes it as insertion
order. -/

/-- `*map.entry(k).or_insert(0.0) += g`. -/
def mapAdd (m : List (String × FVal)) (k : String) (g : FVal) :
    List (String × FVal) :=
  match m with
  | [] => [(k, fadd (.finite 0) g)]
  | (k', v) :: rest =>
      if k' = k then (k', fadd v g) :: rest else (k', v) :: mapAdd rest k g

/-- `map.insert(k, g)` (replaces any previous value). -/
def mapInsert (m : List (String × FVal)) (k : String) (g : FVal) :
    List (String × FVal) :=
  match m with
  | [] => [(k, g)]
  | (k', v) :: rest =>
      if k' = k then (k', g) :: rest else (k', v) :: mapInsert rest k g

/-! ### Analysis Engine (`analyze_power_data`, main.rs 375–471) -/

/-- The mutable accumulators of `analyze_power_data` (main.rs 376–385). -/
structure AnalysisState : Type where
  total_generation : FVal
  estimated_max_generation : FVal
  generation_by_type : List (String × FVal)
  plant_generation : List (String × FVal)
  unit_generation : List (String × FVal)
  environmental_restrictions : Int
  maintenance_count : Int
  fault_count : Int
  renewable_generation : FVal
  private_generation : FVal
deriving DecidableEq

/-- Initial accumulator values (main.rs 376–385). -/
def initState : AnalysisState where
  total_generation := .finite 0
  estimated_max_generation := .finite 0
  generation_by_type := []
  plant_generation := []
  unit_generation := []
  environmental_restrictions := 0
  maintenance_count := 0
  fault_count := 0
  renewable_generation := .finite 0
  private_generation := .finite 0

/-- One iteration of the `for unit in &units` loop (main.rs 387–432).  The
sequence of mutations is written as a single record update; each field
mirrors the corresponding `mut` variable's update.  The remark `match` with
its ordered guards (main.rs 426–431) becomes the nested conditions of the
three counter fields. -/
def stepUnit (s : AnalysisState) (u : PowerUnit) : AnalysisState :=
  if u.unit_name = "小計" then s
  else
    let generation := parse_mw_value u.generation
    let capacity := parse_mw_value u.capacity
    let energy_type := clean_energy_type u.unit_type
    let envHit := strContains u.remark "環保限制" || strContains u.remark "運轉限制"
    let maintHit := strContains u.remark "歲修" || strContains u.remark "檢修"
    let faultHit := strContains u.remark "故障"
    { total_generation := fadd s.total_generation generation
      estimated_max_generation := fadd s.estimated_max_generation capacity
      generation_by_type := mapAdd s.generation_by_type energy_type generation
      plant_generation :=
        match extract_plant_name u.unit_name with
        | some plant => mapAdd s.plant_generation plant generation
        | none => s.plant_generation
      unit_generation :=
        if fgt generation (.finite 0) && !(strContains u.unit_name "小計") then
          mapInsert s.unit_generation u.unit_name generation
        else s.unit_generation
      environmental_restrictions :=
        if envHit then s.environmental_restrictions + 1
        else s.environmental_restrictions
      maintenance_count :=
        if ¬envHit ∧ maintHit then s.maintenance_count + 1 else s.maintenance_count
      fault_count :=
        if ¬envHit ∧ ¬maintHit ∧ faultHit then s.fault_count + 1 else s.fault_count
      renewable_generation :=
        if is_renewable energy_type then fadd s.renewable_generation generation
        else s.renewable_generation
      private_generation :=
        if strContains u.unit_type "民營電廠" then fadd s.private_generation generation
        else s.private_generation }

/-- The whole accumulation loop. -/
def runUnits (units : List PowerUnit) : AnalysisState :=
  units.foldl stepUnit initState

/-- Rust `Iterator::max_by` with
`|a, b| a.1.partial_cmp(&b.1).unwrap_or(Ordering::Equal)` over the map
entries: keeps the later element unless the current maximum compares
strictly greater. -/
def maxBySnd : List (String × FVal) → Option (String × FVal)
  | [] => none
  | x :: xs =>
      some (xs.foldl
        (fun acc y => if (fpcmp acc.2 y.2).getD .eq = .gt then acc else y) x)

/-- The post-loop derivation of `PowerAnalysis` (main.rs 434–470): top
plant/unit with the `("未知", 0.0)` default, and the two guarded ratios. -/
def finalizeAnalysis (date_time : String) (s : AnalysisState) : PowerAnalysis where
  update_time := date_time
  total_generation := s.total_generation
  estimated_max_generation := s.estimated_max_generation
  generation_by_type := s.generation_by_type
  top_plant := (maxBySnd s.plant_generation).getD ("未知", .finite 0)
  top_unit := (maxBySnd s.unit_generation).getD ("未知", .finite 0)
  environmental_restrictions := s.environmental_restrictions
  maintenance_count := s.maintenance_count
  fault_count := s.fault_count
  renewable_ratio_pct :=
    if fgt s.total_generation (.finite 0) then
      fmul100 (fdiv s.renewable_generation s.total_generation)
    else .finite 0
  private_ratio_pct :=
    if fgt s.total_generation (.finite 0) then
      fmul100 (fdiv s.private_generation s.total_generation)
    else .finite 0

/-- The `PowerAnalysis` value produced by `analyze_power_data`. -/
def analysisOf (units : List PowerUnit) (date_time : String) : PowerAnalysis :=
  finalizeAnalysis date_time (runUnits units)

/-- `analyze_power_data` (main.rs 375–471): the `Result`-typed signature is
kept; the body only ever reaches the final `Ok(...)`. -/
def analyze_power_data (units : List PowerUnit) (date_time : String) :
    Except String PowerAnalysis :=
  .ok (analysisOf units date_time)

/-- `analyze_power_data_from_standard` (main.rs 366–368). -/
def analyze_power_data_from_standard (data : PowerData) :
    Except String PowerAnalysis :=
  analyze_power_data data.aa_data data.date_time

/-- `analyze_power_data_from_alternative` (main.rs 370–373); `now` is the
`chrono::Utc::now()` timestamp string, passed in as data. -/
def analyze_power_data_from_alternative (now : String)
    (data : AlternativePowerData) : Except String PowerAnalysis :=
  analyze_power_data data.datas now

example :
    (analysisOf [⟨"風力", "風場#1", "10", "4", "", ""⟩,
      ⟨"燃煤", "台中#1", "550", "500", "", ""⟩] "t").total_generation =
      FVal.finite 504 := by decide

example :
    (analysisOf [⟨"風力", "風場#1", "10", "4", "", ""⟩] "t").renewable_ratio_pct =
      FVal.finite 100 := by decide

example :
    (analysisOf [⟨"燃煤", "台中#1", "550", "-", "", "歲修中"⟩] "t").maintenance_count
      = 1 := by decide

/-! ### Schema Resolver: JSON model and serde decoders (main.rs 329–348)

A response body whose text is valid JSON is modelled as a `Json` value;
`serde_json::from_str::<T>` for the three target types becomes a decoder
`Json → Option T`.  A body that is not valid JSON is modelled as `none`
(all three decodings fail on it, as all three `from_str` calls do). -/

/-- JSON values (numbers, booleans and null only need to exist as shapes
that fail the string decoders). -/
inductive Json : Type
  | null : Json
  | bool (b : Bool) : Json
  | num (q : ℚ) : Json
  | str (s : String) : Json
  | arr (elems : List Json) : Json
  | obj (fields : List (String × Json)) : Json

/-- Object-field lookup (first occurrence). -/
def jLookup (fields : List (String × Json)) (k : String) : Option Json :=
  match fields with
  | [] => none
  | (k', v) :: rest => if k' = k then some v else jLookup rest k

/-- Decode a JSON string. -/
def decodeString : Json → Option String
  | .str s => some s
  | _ => none

/-- serde decoding of `PowerUnit`: an object with the six renamed string
fields (main.rs 30–44); unknown fields are ignored, missing fields fail. -/
def decodePowerUnit : Json → Option PowerUnit
  | .obj fields =>
    match jLookup fields "機組類型" >>= decodeString,
        jLookup fields "機組名稱" >>= decodeString,
        jLookup fields "裝置容量(MW)" >>= decodeString,
        jLookup fields "淨發電量(MW)" >>= decodeString,
        jLookup fields "淨發電量/裝置容量比(%)" >>= decodeString,
        jLookup fields "備註" >>= decodeString with
    | some t, some n, some c, some g, some r, some m => some ⟨t, n, c, g, r, m⟩
    | _, _, _, _, _, _ => none
  | _ => none

/-- serde decoding of `Vec<PowerUnit>`. -/
def decodeUnitList : Json → Option (List PowerUnit)
  | .arr elems => elems.mapM decodePowerUnit
  | _ => none

/-- serde decoding of `PowerData` (shape (a), main.rs 15–21). -/
def decodePowerData : Json → Option PowerData
  | .obj fields =>
    match jLookup fields "DateTime" >>= decodeString,
        jLookup fields "aaData" >>= decodeUnitList with
    | some dt, some us => some ⟨dt, us⟩
    | _, _ => none
  | _ => none

/-- serde decoding of `AlternativePowerData` (shape (b), main.rs 24–28). -/
def decodeAlternativePowerData : Json → Option AlternativePowerData
  | .obj fields =>
    match jLookup fields "datas" >>= decodeUnitList with
    | some us => some ⟨us⟩
    | _ => none
  | _ => none

/-- The sequential schema resolution of a response body (main.rs 329–346):
shape (a) first, then shape (b), then a bare `Vec<PowerUnit>` array; the
first structurally valid match yields the unit list and the timestamp to
analyze (`now` stands for `chrono::Utc::now()`, used by shapes (b) and (c)).
`none` models falling through to the next endpoint. -/
def resolveBody (now : String) (body : Option Json) :
    Option (List PowerUnit × String) :=
  match body >>= decodePowerData with
  | some pd => some (pd.aa_data, pd.date_time)
  | none =>
    match body >>= decodeAlternativePowerData with
    | some ad => some (ad.datas, now)
    | none =>
      match body >>= decodeUnitList with
      | some us => some (us, now)
      | none => none

/-! ### Fetch Orchestrator (`fetch_and_analyze_power_data`, main.rs 301–364)

Network effects are passed in as data: each URL's outcome is either a
transport failure (`send()` errored), a non-2xx status, a failure to read
the body text, or a body (`some` a JSON value, `none` when the text is not
valid JSON). -/

/-- The outcome of `client.get(url).send()` plus status/text handling for
one endpoint. -/
inductive FetchOutcome : Type
  | netFailure : FetchOutcome
  | badStatus : FetchOutcome
  | textFailure : FetchOutcome
  | success (body : Option Json) : FetchOutcome

/-- The fixed ordered endpoint list (main.rs 303–307). -/
def apiUrls : List String :=
  ["https://www.taipower.com.tw/d006/loadGraph/loadGraph/data/genloadareaperc.json",
   "https://service.taipower.com.tw/data/opendata/apply/file/d006001/001.json",
   "https://www.taipower.com.tw/d006/loadGraph/loadGraph/data/genary.json"]

/-- The `for (i, url) in urls.iter().enumerate()` loop (main.rs 314–363):
failures of any kind continue with the remaining endpoints; the first body
that resolves is analyzed and returned immediately; an exhausted list is the
final error. -/
def tryEndpoints (now : String) : List FetchOutcome → Except String PowerAnalysis
  | [] => .error "All API endpoints failed"
  | o :: rest =>
    match o with
    | .netFailure => tryEndpoints now rest
    | .badStatus => tryEndpoints now rest
    | .textFailure => tryEndpoints now rest
    | .success body =>
      match resolveBody now body with
      | some (us, dt) => analyze_power_data us dt
      | none => tryEndpoints now rest

/-- `fetch_and_analyze_power_data` (main.rs 301–364): `responses` is the
network, mapping each URL to its outcome. -/
def fetch_and_analyze_power_data (now : String)
    (responses : String → FetchOutcome) : Except String PowerAnalysis :=
  tryEndpoints now (apiUrls.map responses)

/-! ### Load data (main.rs 97–115) and the Report Renderer (main.rs 516–596) -/

/-- `LoadData` (main.rs 97–115): the normalized load/reserve summary. -/
structure LoadData : Type where
  current_load : FVal
  current_util_rate : FVal
  forecast_max_supply_capacity : FVal
  forecast_peak_demand_load : FVal
  forecast_peak_reserve_capacity : FVal
  forecast_peak_reserve_rate : FVal
  forecast_peak_reserve_indicator : String
  forecast_peak_hour_range : String
  publish_time : String
  yesterday_max_supply_capacity : FVal
  yesterday_peak_demand_load : FVal
  yesterday_peak_reserve_capacity : FVal
  yesterday_peak_reserve_rate : FVal
  yesterday_peak_reserve_indicator : String
  real_hour_max_supply_capacity : FVal
  real_hour_peak_time : String
deriving DecidableEq

/-- `CombinedPowerData` (main.rs 132–136). -/
structure CombinedPowerData : Type where
  power_analysis : PowerAnalysis
  load_data : Option LoadData
deriving DecidableEq

/-- `get_reserve_indicator_emoji` (main.rs 516–524). -/
def get_reserve_indicator_emoji (indicator : String) : String :=
  if indicator = "G" then "🟢"
  else if indicator = "Y" then "🟡"
  else if indicator = "O" then "🟠"
  else if indicator = "R" then "🔴"
  else "⚪"

/-- Nearest integer to `q`, ties to even (the rounding of Rust's fixed
precision float formatting). -/
def roundHalfEven (q : ℚ) : ℤ :=
  let n := q.num
  let d : ℤ := (q.den : ℤ)
  let f := Int.fdiv n d
  let rem := n - f * d
  if 2 * rem < d then f
  else if d < 2 * rem then f + 1
  else if f % 2 = 0 then f else f + 1

/-- Left-pad with zeros to `p` characters. -/
def padZeros (p : ℕ) (s : String) : String :=
  if s.length < p then String.mk (List.replicate (p - s.length) '0') ++ s else s

/-- Rust `format!("{:.p}", v)` for an `f64` (`p` fractional digits; the sign
of negative zero is not modelled). -/
def fmtFix (p : ℕ) (v : FVal) : String :=
  match v with
  | .nan => "NaN"
  | .inf => "inf"
  | .neginf => "-inf"
  | .finite q =>
    let scaled := roundHalfEven (mkRat (q.num * 10 ^ p) q.den)
    let sign := if scaled < 0 then "-" else ""
    let n := scaled.natAbs
    if p = 0 then sign ++ toString n
    else sign ++ toString (n / 10 ^ p) ++ "." ++ padZeros p (toString (n % 10 ^ p))

/-- The comparator of main.rs 573:
`|a, b| b.1.partial_cmp(a.1).unwrap_or(Ordering::Equal)` (descending by
generation). -/
def cmpDescBySnd (a b : String × FVal) : Ordering :=
  (fpcmp b.2 a.2).getD .eq

/-- Stable insertion into a sorted list. -/
def insertSorted (cmp : String × FVal → String × FVal → Ordering)
    (x : String × FVal) : List (String × FVal) → List (String × FVal)
  | [] => [x]
  | y :: ys =>
      if cmp x y = .gt then y :: insertSorted cmp x ys else x :: y :: ys

/-- Stable sort (Rust `slice::sort_by` is stable). -/
def sortByCmp (cmp : String × FVal → String × FVal → Ordering) :
    List (String × FVal) → List (String × FVal)
  | [] => []
  | x :: xs => insertSorted cmp x (sortByCmp cmp xs)

/-- The percentage-loaded figure of main.rs 568–569:
`(analysis.total_generation / analysis.estimated_max_generation) * 100.0`,
computed with no zero-divisor guard. -/
def percentLoaded (analysis : PowerAnalysis) : FVal :=
  fmul100 (fdiv analysis.total_generation analysis.estimated_max_generation)

/-- The per-type breakdown lines (main.rs 575–577). -/
def typeLines (sorted : List (String × FVal)) : String :=
  sorted.foldl
    (fun acc e => acc ++ "   • " ++ e.1 ++ ": " ++ fmtFix 1 e.2 ++ " MW\n") ""

/-- The load/reserve section of the message (main.rs 532–560), emitted only
when load data is present. -/
def loadSectionStr (load_data : LoadData) : String :=
  "⚡ **電力供需資訊**\n" ++
  "📊 **目前用電量**: " ++ fmtFix 1 load_data.current_load ++ " 萬瓩\n" ++
  "📈 **目前使用率**: " ++ fmtFix 1 load_data.current_util_rate ++ "%\n" ++
  "🔌 **預估今日最大供電能力**: " ++ fmtFix 1 load_data.forecast_max_supply_capacity ++ " 萬瓩\n" ++
  "⬆️ **預估今日最高用電**: " ++ fmtFix 1 load_data.forecast_peak_demand_load ++ " 萬瓩\n" ++
  "🔋 **預估今日尖峰備轉容量**: " ++ fmtFix 1 load_data.forecast_peak_reserve_capacity ++ " 萬瓩\n" ++
  get_reserve_indicator_emoji load_data.forecast_peak_reserve_indicator ++
    " **預估今日尖峰備轉容量率**: " ++ fmtFix 2 load_data.forecast_peak_reserve_rate ++ "%\n" ++
  "🕐 **預估尖峰用電時段**: " ++ load_data.forecast_peak_hour_range ++ "\n" ++
  "📅 **資料更新時間**: " ++ load_data.publish_time ++ "\n\n" ++
  "📊 **昨日電力資訊**\n" ++
  "🔌 **最大供電能力**: " ++ fmtFix 1 load_data.yesterday_max_supply_capacity ++ " 萬瓩\n" ++
  "⬆️ **尖峰用電量**: " ++ fmtFix 1 load_data.yesterday_peak_demand_load ++ " 萬瓩\n" ++
  "🔋 **尖峰備轉容量**: " ++ fmtFix 1 load_data.yesterday_peak_reserve_capacity ++ " 萬瓩\n" ++
  get_reserve_indicator_emoji load_data.yesterday_peak_reserve_indicator ++
    " **尖峰備轉容量率**: " ++ fmtFix 2 load_data.yesterday_peak_reserve_rate ++ "%\n\n" ++
  (if fgt load_data.real_hour_max_supply_capacity (.finite 0) then
    "⏰ **即時尖峰資訊**\n" ++
    "🔌 **即時最大供電能力**: " ++ fmtFix 1 load_data.real_hour_max_supply_capacity ++ " 萬瓩\n" ++
    "🕰️ **尖峰時間**: " ++ load_data.real_hour_peak_time ++ "\n\n"
  else "")

/-- The generation section and the fixed footer (main.rs 562–593). -/
def generationSectionStr (analysis : PowerAnalysis) : String :=
  "🏭 **發電機組資訊**\n" ++
  "📅 **更新時間**: " ++ analysis.update_time ++ "\n" ++
  "⚡ **總發電量**: " ++ fmtFix 1 analysis.total_generation ++ " MW\n" ++
  "🔄 **裝置容量**: " ++ fmtFix 1 analysis.estimated_max_generation ++ " MW\n" ++
  "📊 **發電占比**: " ++ fmtFix 1 (percentLoaded analysis) ++ "%\n\n" ++
  "🏭 **各能源發電量**:\n" ++
  typeLines (sortByCmp cmpDescBySnd analysis.generation_by_type) ++
  "\n🏆 **發電量最高電廠**: " ++ analysis.top_plant.1 ++ " (" ++
    fmtFix 1 analysis.top_plant.2 ++ " MW)\n" ++
  "🥇 **發電量最高機組**: " ++ analysis.top_unit.1 ++ " (" ++
    fmtFix 1 analysis.top_unit.2 ++ " MW)\n" ++
  "\n📋 **運轉狀態統計**:\n" ++
  "   🌱 環保限制/運轉限制: " ++ toString analysis.environmental_restrictions ++ " 部\n" ++
  "   🔧 歲修/檢修: " ++ toString analysis.maintenance_count ++ " 部\n" ++
  "   ⚠️ 故障: " ++ toString analysis.fault_count ++ " 部\n" ++
  "\n🌿 **再生能源占比**: " ++ fmtFix 1 analysis.renewable_ratio_pct ++ "%\n" ++
  "🏢 **民營電廠+購電占比**: " ++ fmtFix 1 analysis.private_ratio_pct ++ "%\n" ++
  "\n📊 資料來源: [台電公司開放資料](<https://data.gov.tw/dataset/8931>)" ++
  "\n⚠️本資料可能會有錯誤或延遲，造成損失與我們無關"

/-- `format_combined_power_message` (main.rs 526–596). -/
def format_combined_power_message (data : CombinedPowerData) : String :=
  "🔋 **台電即時電力資訊** 🔋\n\n" ++
  (match data.load_data with
   | some load_data => loadSectionStr load_data
   | none => "") ++
  generationSectionStr data.power_analysis

/-! ### The per-tick pipeline of `Handler::ready` (main.rs 150–186)

Each tick fetches generation data and load data; the two fetch results are
passed in as data.  A generation-fetch error produces the short error
notice; otherwise a load-fetch error merely leaves the load section out. -/

/-- The `match fetch_load_data().await` of main.rs 169–175. -/
def loadOptOf : Except String LoadData → Option LoadData
  | .ok d => some d
  | .error _ => none

/-- The single message the tick sends (main.rs 157–185): either the error
notice (power fetch failed, main.rs 161) or the combined report. -/
def tickMessage (powerRes : Except String PowerAnalysis)
    (loadRes : Except String LoadData) : String :=
  match powerRes with
  | .error e => "❌ 無法取得台電發電資料: " ++ e
  | .ok analysis =>
      format_combined_power_message ⟨analysis, loadOptOf loadRes⟩

/-! ### Concrete example data (used by witnesses) -/

/-- A shape-conforming JSON unit row. -/
def exampleUnitJson : Json :=
  .obj [("機組類型", .str "風力"), ("機組名稱", .str "風場#1"),
    ("裝置容量(MW)", .str "10"), ("淨發電量(MW)", .str "4"),
    ("淨發電量/裝置容量比(%)", .str "40"), ("備註", .str "")]

/-- The `PowerUnit` that `exampleUnitJson` decodes to. -/
def exampleUnit : PowerUnit := ⟨"風力", "風場#1", "10", "4", "40", ""⟩

/-- A body matching shape (a) — and, via its extra `datas` field, also
shape (b), so it distinguishes the resolution order. -/
def exampleBodyA : Json :=
  .obj [("DateTime", .str "2024-05-01 10:00:00"),
    ("aaData", .arr [exampleUnitJson]), ("datas", .arr [])]

/-- A bare-array body: matches only shape (c). -/
def exampleBodyC : Json := .arr [exampleUnitJson]

/-! ### Helper lemmas -/

theorem takeWhile_append_middle {α : Type} (p : α → Bool) (x : α)
    (l1 l2 : List α) (h1 : ∀ c ∈ l1, p c = true) (hx : p x = false) :
    (l1 ++ x :: l2).takeWhile p = l1.takeWhile p := by
  induction l1 with
  | nil => simp [List.takeWhile, hx]
  | cons a t ih =>
    have ha := h1 a (by simp)
    simp only [List.cons_append, List.takeWhile_cons, ha, if_true]
    rw [ih (fun c hc => h1 c (by simp [hc]))]

theorem cleanNumeric_idem (s : String) :
    cleanNumeric (cleanNumeric s) = cleanNumeric s := by
  unfold cleanNumeric
  have htl : ∀ l : List Char, (String.mk l).toList = l := fun _ => rfl
  rw [htl]
  congr 1
  have h1 : List.takeWhile (fun c : Char => decide (c ≠ '('))
      ((s.toList.takeWhile (fun c => decide (c ≠ '('))).filter
        (fun c => decide (c ≠ ','))) =
      ((s.toList.takeWhile (fun c => decide (c ≠ '('))).filter
        (fun c => decide (c ≠ ','))) := by
    apply List.takeWhile_eq_self_iff.mpr
    intro c hc
    have h2 := List.mem_of_mem_filter hc
    have h3 := List.mem_takeWhile_imp h2
    exact h3
  rw [h1]
  apply List.filter_eq_self.mpr
  intro c hc
  exact (List.mem_filter.mp hc).2

theorem cleanNumeric_strip (s t : String) (h : '(' ∉ s.toList) :
    cleanNumeric (s ++ "(" ++ t) = cleanNumeric s := by
  have hl : (s ++ "(" ++ t).toList = s.toList ++ '(' :: t.toList := by
    show ((s ++ "(") ++ t).data = s.data ++ '(' :: t.data
    rw [String.data_append, String.data_append]
    have hp : ("(" : String).data = ['('] := rfl
    rw [hp, List.append_assoc]
    rfl
  unfold cleanNumeric
  rw [hl]
  congr 1
  refine congrArg (List.filter fun c => decide (c ≠ ',')) ?_
  apply takeWhile_append_middle
  · intro c hc
    simp only [decide_eq_true_eq]
    intro heq
    exact h (heq ▸ hc)
  · simp

theorem stepUnit_subtotal (s : AnalysisState) (u : PowerUnit)
    (h : u.unit_name = "小計") : stepUnit s u = s := by
  simp [stepUnit, h]

theorem foldl_stepUnit_filter (units : List PowerUnit) : ∀ s : AnalysisState,
    (units.filter fun u => u.unit_name ≠ "小計").foldl stepUnit s =
      units.foldl stepUnit s := by
  induction units with
  | nil => intro s; rfl
  | cons u t ih =>
    intro s
    by_cases h : u.unit_name = "小計"
    · have ih' := ih s
      simp only [decide_not] at ih'
      simp [List.filter_cons, h, stepUnit_subtotal s u h, ih']
    · have ih' := ih (stepUnit s u)
      simp only [decide_not] at ih'
      simp [List.filter_cons, h, ih']

/-! ### Claim theorems -/

/-- C1 (counterexample): `parse_mw_value` does **not** always return a
finite float — the input string `"inf"` survives the cleaning step and Rust
`f64` parsing accepts it as positive infinity. -/
theorem c1_counterexample :
    (parse_mw_value "inf").isFinite = false ∧ parse_mw_value "inf" = FVal.inf := by
  constructor
  · decide
  · decide

/-- C1 (amended): `parse_mw_value` is total and never raises; it first
strips everything from the first `"("` onward, then removes commas, maps
`"-"`, `"N/A"` and the empty string to exactly `0.0`, and returns `0.0` on
any remaining parse failure; the four documented examples hold.  However,
the result is not always finite: inputs parsed by Rust as infinity or NaN
literals (such as `"inf"`) yield those non-finite values. -/
theorem c1_parse_mw_value_total :
    parse_mw_value "1,234" = FVal.finite 1234 ∧
    parse_mw_value "5(note)" = FVal.finite 5 ∧
    parse_mw_value "-" = FVal.finite 0 ∧
    parse_mw_value "" = FVal.finite 0 ∧
    parse_mw_value "N/A" = FVal.finite 0 ∧
    (∀ s t : String, '(' ∉ s.toList →
      parse_mw_value (s ++ "(" ++ t) = parse_mw_value s) ∧
    (∀ s : String, parse_mw_value (cleanNumeric s) = parse_mw_value s) ∧
    (∀ s : String, rustParseF64 (cleanNumeric s) = none →
      parse_mw_value s = FVal.finite 0) := by
  refine ⟨by decide, by decide, by decide, by decide, by decide, ?_, ?_, ?_⟩
  · intro s t h
    simp only [parse_mw_value]
    rw [cleanNumeric_strip s t h]
  · intro s
    simp only [parse_mw_value]
    rw [cleanNumeric_idem]
  · intro s h
    simp only [parse_mw_value]
    split_ifs with hc
    · rfl
    · rw [h]
      rfl

/-- C1 witness: the universally quantified parts of `c1_parse_mw_value_total`
evaluated at concrete inputs. -/
theorem c1_parse_mw_value_witness :
    parse_mw_value ("5" ++ "(" ++ "note)") = parse_mw_value "5" ∧
    parse_mw_value "abc" = FVal.finite 0 :=
  ⟨c1_parse_mw_value_total.2.2.2.2.2.1 "5" "note)" (by decide),
   c1_parse_mw_value_total.2.2.2.2.2.2.2 "abc" (by decide)⟩

/-- C5: rows whose unit name is the literal subtotal marker `"小計"` are
skipped by the analysis loop before any accumulator is touched, so they are
excluded from every aggregate: filtering them out leaves the analysis
unchanged, and one real row plus one subtotal row yields exactly the
aggregates of the real row alone. -/
theorem c5_subtotal_rows_excluded :
    (∀ (units : List PowerUnit) (date_time : String),
      analyze_power_data (units.filter fun u => u.unit_name ≠ "小計") date_time =
        analyze_power_data units date_time) ∧
    analyze_power_data
        [⟨"燃煤", "台中#1", "550", "500", "", ""⟩,
          ⟨"燃煤", "小計", "550", "500", "", ""⟩] "t" =
      analyze_power_data [⟨"燃煤", "台中#1", "550", "500", "", ""⟩] "t" := by
  have key : ∀ (units : List PowerUnit) (date_time : String),
      analyze_power_data (units.filter fun u => u.unit_name ≠ "小計") date_time =
        analyze_power_data units date_time := by
    intro units dt
    unfold analyze_power_data analysisOf runUnits
    rw [foldl_stepUnit_filter]
  refine ⟨key, ?_⟩
  have h2 := key
    [⟨"燃煤", "台中#1", "550", "500", "", ""⟩,
      ⟨"燃煤", "小計", "550", "500", "", ""⟩] "t"
  rw [show List.filter (fun u => u.unit_name ≠ "小計")
      [(⟨"燃煤", "台中#1", "550", "500", "", ""⟩ : PowerUnit),
        ⟨"燃煤", "小計", "550", "500", "", ""⟩] =
      [⟨"燃煤", "台中#1", "550", "500", "", ""⟩] from by decide] at h2
  exact h2

/-- C9: the report renderer's percentage-loaded figure divides total
generation by installed capacity with no zero-divisor guard, so whenever
installed capacity is `0.0` the rendered percentage is non-finite (NaN or
an infinity), unlike the guarded ratios. -/
theorem c9_percent_loaded_nonfinite_on_zero_capacity :
    ∀ analysis : PowerAnalysis,
      analysis.estimated_max_generation = FVal.finite 0 →
      (percentLoaded analysis).isFinite = false := by
  intro a h
  unfold percentLoaded
  rw [h]
  cases ht : a.total_generation <;>
    first
    | (simp [fdiv, fmul100, FVal.isFinite]; split_ifs <;> simp_all)
    | (simp [fdiv, fmul100, FVal.isFinite])

/-- C9 witness: the empty unit list produces an analysis with installed
capacity `0.0`, whose rendered percentage is non-finite. -/
theorem c9_percent_loaded_witness :
    (percentLoaded (analysisOf [] "t")).isFinite = false :=
  c9_percent_loaded_nonfinite_on_zero_capacity (analysisOf [] "t") (by decide)

/-- C10: `analyze_power_data` keeps the `Result`-typed signature of the
source but is infallible — for every unit list and timestamp it returns
`Ok` and the error branch is unreachable. -/
theorem c10_analyze_never_errors :
    ∀ (units : List PowerUnit) (date_time : String),
      (∃ a, analyze_power_data units date_time = Except.ok a) ∧
      ∀ e, analyze_power_data units date_time ≠ Except.error e :=
  fun units dt =>
    ⟨⟨analysisOf units dt, rfl⟩, fun _ h => Except.noConfusion h⟩

/-- C3: a load-fetch failure of any kind never aborts generation
reporting — the combined report is built with the load summary absent, and
the delivered message is exactly the header plus the generation section,
with no load section and no error text. -/
theorem c3_load_failure_keeps_generation_report :
    ∀ (analysis : PowerAnalysis) (e : String),
      loadOptOf (Except.error e) = none ∧
      tickMessage (Except.ok analysis) (Except.error e) =
        format_combined_power_message ⟨analysis, none⟩ ∧
      format_combined_power_message ⟨analysis, none⟩ =
        "🔋 **台電即時電力資訊** 🔋\n\n" ++ generationSectionStr analysis := by
  intro a e
  refine ⟨rfl, rfl, ?_⟩
  show "🔋 **台電即時電力資訊** 🔋\n\n" ++ "" ++ generationSectionStr a = _
  rw [String.append_empty]

/-- C2: the generation fetch walks the fixed ordered three-URL list; a
network failure, a bad status, a text failure, or an unresolvable body make
it continue with the remaining endpoints, the first resolvable body is
analyzed and returned immediately, and an exhausted list yields the
all-endpoints-exhausted error. -/
theorem c2_fetch_orchestration :
    ∀ now : String,
      (∀ rest, tryEndpoints now (.netFailure :: rest) = tryEndpoints now rest) ∧
      (∀ rest, tryEndpoints now (.badStatus :: rest) = tryEndpoints now rest) ∧
      (∀ rest, tryEndpoints now (.textFailure :: rest) = tryEndpoints now rest) ∧
      (∀ body rest, resolveBody now body = none →
        tryEndpoints now (.success body :: rest) = tryEndpoints now rest) ∧
      (∀ body rest us dt, resolveBody now body = some (us, dt) →
        tryEndpoints now (.success body :: rest) = analyze_power_data us dt) ∧
      tryEndpoints now [] = .error "All API endpoints failed" ∧
      (∀ responses : String → FetchOutcome,
        fetch_and_analyze_power_data now responses =
          tryEndpoints now
            [responses "https://www.taipower.com.tw/d006/loadGraph/loadGraph/data/genloadareaperc.json",
             responses "https://service.taipower.com.tw/data/opendata/apply/file/d006001/001.json",
             responses "https://www.taipower.com.tw/d006/loadGraph/loadGraph/data/genary.json"]) := by
  intro now
  refine ⟨fun _ => rfl, fun _ => rfl, fun _ => rfl, ?_, ?_, rfl, fun _ => rfl⟩
  · intro body rest h
    simp [tryEndpoints, h]
  · intro body rest us dt h
    simp [tryEndpoints, h]

/-- C2 witness: a first endpoint whose body is unparseable text falls
through to the second, whose shape-(a) body is analyzed immediately. -/
theorem c2_fetch_orchestration_witness :
    tryEndpoints "now" [.success none, .success (some exampleBodyA)] =
      analyze_power_data [exampleUnit] "2024-05-01 10:00:00" := by
  have h4 := (c2_fetch_orchestration "now").2.2.2.1 none
    [.success (some exampleBodyA)] (by decide)
  have h5 := (c2_fetch_orchestration "now").2.2.2.2.1 (some exampleBodyA) []
    [exampleUnit] "2024-05-01 10:00:00" (by decide)
  rw [h4, h5]

/-- C6: schema resolution tries shape (a), then shape (b), then the bare
array shape (c), returning the first structurally valid match: a body
decoding as shape (a) is resolved with its own timestamp and never via
(b)/(c); a body matching only later shapes still resolves; a body matching
none is a parse failure for that endpoint. -/
theorem c6_schema_resolution_order :
    ∀ (now : String) (body : Option Json),
      (∀ pd, body >>= decodePowerData = some pd →
        resolveBody now body = some (pd.aa_data, pd.date_time)) ∧
      (∀ ad, body >>= decodePowerData = none →
        body >>= decodeAlternativePowerData = some ad →
        resolveBody now body = some (ad.datas, now)) ∧
      (∀ us, body >>= decodePowerData = none →
        body >>= decodeAlternativePowerData = none →
        body >>= decodeUnitList = some us →
        resolveBody now body = some (us, now)) ∧
      (body >>= decodePowerData = none →
        body >>= decodeAlternativePowerData = none →
        body >>= decodeUnitList = none →
        resolveBody now body = none) := by
  intro now body
  refine ⟨?_, ?_, ?_, ?_⟩
  · intro pd h
    simp [resolveBody, h]
  · intro ad h1 h2
    simp [resolveBody, h1, h2]
  · intro us h1 h2 h3
    simp [resolveBody, h1, h2, h3]
  · intro h1 h2 h3
    simp [resolveBody, h1, h2, h3]

/-- C6 witness: a body matching shapes (a) and (b) resolves via (a) with
its embedded timestamp (not the synthesized `"now"`); a bare-array body
matching only shape (c) still resolves, with the synthesized timestamp. -/
theorem c6_schema_resolution_witness :
    resolveBody "now" (some exampleBodyA) =
      some ([exampleUnit], "2024-05-01 10:00:00") ∧
    resolveBody "now" (some exampleBodyC) = some ([exampleUnit], "now") :=
  ⟨(c6_schema_resolution_order "now" (some exampleBodyA)).1
      ⟨"2024-05-01 10:00:00", [exampleUnit]⟩ (by decide),
   (c6_schema_resolution_order "now" (some exampleBodyC)).2.2.1
      [exampleUnit] (by decide) (by decide) (by decide)⟩

/-- C4 (counterexample): the ratio guard in the source is `> 0.0`, not
`== 0.0` — a single renewable unit generating -100 MW gives a total of
-100 MW (nonzero), where the claimed formula yields 100.0 but the computed
renewable ratio is 0.0. -/
theorem c4_counterexample :
    (runUnits [⟨"風力", "X", "100", "-100", "", ""⟩]).total_generation =
      FVal.finite (-100) ∧
    (runUnits [⟨"風力", "X", "100", "-100", "", ""⟩]).renewable_generation =
      FVal.finite (-100) ∧
    fmul100 (fdiv
      (runUnits [⟨"風力", "X", "100", "-100", "", ""⟩]).renewable_generation
      (runUnits [⟨"風力", "X", "100", "-100", "", ""⟩]).total_generation) =
      FVal.finite 100 ∧
    (analysisOf [⟨"風力", "X", "100", "-100", "", ""⟩] "t").renewable_ratio_pct =
      FVal.finite 0 := by
  refine ⟨by decide, by decide, by decide, by decide⟩

/-- C4 (amended): the renewable and private ratios equal
renewable-generation / total-generation × 100 and
private-generation / total-generation × 100 whenever total generation is
strictly positive, and are exactly 0.0 (never NaN) whenever it is not — in
particular when total generation is 0.0, e.g. for an all-zero-generation
unit list. -/
theorem c4_ratio_guard :
    (∀ (units : List PowerUnit) (date_time : String),
      (fgt (runUnits units).total_generation (FVal.finite 0) = true →
        (analysisOf units date_time).renewable_ratio_pct =
          fmul100 (fdiv (runUnits units).renewable_generation
            (runUnits units).total_generation) ∧
        (analysisOf units date_time).private_ratio_pct =
          fmul100 (fdiv (runUnits units).private_generation
            (runUnits units).total_generation)) ∧
      (fgt (runUnits units).total_generation (FVal.finite 0) = false →
        (analysisOf units date_time).renewable_ratio_pct = FVal.finite 0 ∧
        (analysisOf units date_time).private_ratio_pct = FVal.finite 0) ∧
      ((runUnits units).total_generation = FVal.finite 0 →
        (analysisOf units date_time).renewable_ratio_pct = FVal.finite 0 ∧
        (analysisOf units date_time).private_ratio_pct = FVal.finite 0)) ∧
    (analysisOf [⟨"風力", "A", "10", "0", "", ""⟩, ⟨"燃煤", "B", "20", "-", "", ""⟩]
      "t").renewable_ratio_pct = FVal.finite 0 ∧
    (analysisOf [⟨"風力", "A", "10", "0", "", ""⟩, ⟨"燃煤", "B", "20", "-", "", ""⟩]
      "t").private_ratio_pct = FVal.finite 0 := by
  refine ⟨?_, by decide, by decide⟩
  intro units dt
  refine ⟨?_, ?_, ?_⟩
  · intro h
    constructor
    · simp [analysisOf, finalizeAnalysis, h]
    · simp [analysisOf, finalizeAnalysis, h]
  · intro h
    constructor
    · simp [analysisOf, finalizeAnalysis, h]
    · simp [analysisOf, finalizeAnalysis, h]
  · intro h
    have hf : fgt (runUnits units).total_generation (FVal.finite 0) = false := by
      rw [h]
      decide
    constructor
    · simp [analysisOf, finalizeAnalysis, hf]
    · simp [analysisOf, finalizeAnalysis, hf]

/-- C4 witness: a strictly positive total (one wind unit at 4 MW) takes
the formula branch; its renewable ratio is the formula value, i.e. 100%. -/
theorem c4_ratio_guard_witness :
    (analysisOf [exampleUnit] "t").renewable_ratio_pct =
      fmul100 (fdiv (runUnits [exampleUnit]).renewable_generation
        (runUnits [exampleUnit]).total_generation) ∧
    (analysisOf [exampleUnit] "t").renewable_ratio_pct = FVal.finite 100 :=
  ⟨((c4_ratio_guard.1 [exampleUnit] "t").1 (by decide)).1, by decide⟩

/-- C7: for a non-subtotal record, generation is added to the renewable
accumulator iff the normalized type label is one of the four renewable
labels (wind, solar, hydro, other-renewable), and to the private
accumulator iff the raw, pre-normalization type label contains the
private-plant marker, independently of the normalized label. -/
theorem c7_renewable_and_private_accumulation :
    (∀ ty : String, is_renewable ty = true ↔
      ty = "風力" ∨ ty = "太陽能" ∨ ty = "水力" ∨ ty = "其它再生能源") ∧
    (∀ (s : AnalysisState) (u : PowerUnit), u.unit_name ≠ "小計" →
      (is_renewable (clean_energy_type u.unit_type) = true →
        (stepUnit s u).renewable_generation =
          fadd s.renewable_generation (parse_mw_value u.generation)) ∧
      (is_renewable (clean_energy_type u.unit_type) = false →
        (stepUnit s u).renewable_generation = s.renewable_generation) ∧
      (strContains u.unit_type "民營電廠" = true →
        (stepUnit s u).private_generation =
          fadd s.private_generation (parse_mw_value u.generation)) ∧
      (strContains u.unit_type "民營電廠" = false →
        (stepUnit s u).private_generation = s.private_generation)) := by
  constructor
  · intro ty
    simp [is_renewable]
  · intro s u h
    refine ⟨?_, ?_, ?_, ?_⟩ <;> intro hc <;> simp [stepUnit, h, hc]

/-- C7 witness: a privately owned wind unit (raw label `"民營電廠-風力"`,
normalized to `"民營風力"`, which is not in the renewable set) adds its
generation to the private accumulator but not to the renewable one. -/
theorem c7_accumulation_witness :
    (stepUnit initState ⟨"民營電廠-風力", "X#1", "10", "5", "", ""⟩).private_generation =
      fadd initState.private_generation (parse_mw_value "5") ∧
    (stepUnit initState ⟨"民營電廠-風力", "X#1", "10", "5", "", ""⟩).renewable_generation =
      initState.renewable_generation :=
  ⟨((c7_renewable_and_private_accumulation.2 initState
      ⟨"民營電廠-風力", "X#1", "10", "5", "", ""⟩ (by decide)).2.2.1 (by decide)),
   ((c7_renewable_and_private_accumulation.2 initState
      ⟨"民營電廠-風力", "X#1", "10", "5", "", ""⟩ (by decide)).2.1 (by decide))⟩

/-- C8: remark classification is an ordered, first-match-wins substring
check touching at most one counter per record: an environmental/operating
restriction phrase increments the restriction count; otherwise a
maintenance/overhaul phrase increments the maintenance count; otherwise a
fault phrase increments the fault count; otherwise no counter changes. -/
theorem c8_remark_classification :
    ∀ (s : AnalysisState) (u : PowerUnit), u.unit_name ≠ "小計" →
      ((strContains u.remark "環保限制" || strContains u.remark "運轉限制") = true →
        (stepUnit s u).environmental_restrictions = s.environmental_restrictions + 1 ∧
        (stepUnit s u).maintenance_count = s.maintenance_count ∧
        (stepUnit s u).fault_count = s.fault_count) ∧
      ((strContains u.remark "環保限制" || strContains u.remark "運轉限制") = false →
        (strContains u.remark "歲修" || strContains u.remark "檢修") = true →
        (stepUnit s u).environmental_restrictions = s.environmental_restrictions ∧
        (stepUnit s u).maintenance_count = s.maintenance_count + 1 ∧
        (stepUnit s u).fault_count = s.fault_count) ∧
      ((strContains u.remark "環保限制" || strContains u.remark "運轉限制") = false →
        (strContains u.remark "歲修" || strContains u.remark "檢修") = false →
        strContains u.remark "故障" = true →
        (stepUnit s u).environmental_restrictions = s.environmental_restrictions ∧
        (stepUnit s u).maintenance_count = s.maintenance_count ∧
        (stepUnit s u).fault_count = s.fault_count + 1) ∧
      ((strContains u.remark "環保限制" || strContains u.remark "運轉限制") = false →
        (strContains u.remark "歲修" || strContains u.remark "檢修") = false →
        strContains u.remark "故障" = false →
        (stepUnit s u).environmental_restrictions = s.environmental_restrictions ∧
        (stepUnit s u).maintenance_count = s.maintenance_count ∧
        (stepUnit s u).fault_count = s.fault_count) := by
  intro s u h
  refine ⟨?_, ?_, ?_, ?_⟩
  · intro h1
    simp [stepUnit, h, h1]
  · intro h1 h2
    simp only [Bool.or_eq_false_iff] at h1
    simp [stepUnit, h, h1.1, h1.2, h2]
  · intro h1 h2 h3
    simp only [Bool.or_eq_false_iff] at h1 h2
    simp [stepUnit, h, h1.1, h1.2, h2.1, h2.2, h3]
  · intro h1 h2 h3
    simp only [Bool.or_eq_false_iff] at h1 h2
    simp [stepUnit, h, h1.1, h1.2, h2.1, h2.2, h3]

/-- C8 witness: a remark containing both a maintenance phrase and a fault
phrase increments only the maintenance counter (first match wins). -/
theorem c8_remark_classification_witness :
    (stepUnit initState ⟨"燃煤", "X#1", "10", "5", "", "歲修、故障"⟩).maintenance_count =
      initState.maintenance_count + 1 ∧
    (stepUnit initState ⟨"燃煤", "X#1", "10", "5", "", "歲修、故障"⟩).fault_count =
      initState.fault_count ∧
    (stepUnit initState
      ⟨"燃煤", "X#1", "10", "5", "", "歲修、故障"⟩).environmental_restrictions =
      initState.environmental_restrictions := by
  have h := (c8_remark_classification initState
    ⟨"燃煤", "X#1", "10", "5", "", "歲修、故障"⟩ (by decide)).2.1 (by decide) (by decide)
  exact ⟨h.2.1, h.2.2, h.1⟩
